import Mathlib

/-!
Shallow embedding of the process- and memory-management core of the
TJU-cinea-os kernel (files `src/syskrnl/proc.rs`, `src/syskrnl/allocator/mod.rs`,
`src/syskrnl/syscall/service.rs`), together with theorems checking the
natural-language specification against it.

Machine integers (`usize`, `u64`) are modelled as `Nat` with explicit
`% 2^64` where the source's wrapping atomics (`fetch_add` / `fetch_sub`)
or additions can wrap.  Rust panics (array indexing out of bounds,
`expect` on a failed `Result`) are modelled as an explicit `fatal`
outcome carrying an enumerated message.  Calls into the external page
mapper (`alloc_pages` / `free_pages`) and copies of image bytes are
recorded as an event trace inside the kernel state, and the mapper's
success or failure is an oracle parameter, since frame allocation is an
external collaborator.
-/

namespace CineaOS

/-- `usize` / `u64` modulus. -/
def U64 : Nat := 2 ^ 64

/-- `MAX_PROCS` from proc.rs: capacity of the process table. -/
def MAX_PROCS : Nat := 4

/-- `MAX_PROC_SIZE` from proc.rs: `10 << 20`, size of one code/stack region. -/
def MAX_PROC_SIZE : Nat := 10 <<< 20

/-- `DEFAULT_HEAP_SIZE` from proc.rs: `0x4000`. -/
def DEFAULT_HEAP_SIZE : Nat := 0x4000

/-- `HEAP_START` from allocator/mod.rs. -/
def HEAP_START : Nat := 0x100000000

/-- `HEAP_SIZE` from allocator/mod.rs: 40 MiB. -/
def HEAP_SIZE : Nat := 40 * 1024 * 1024

/-- Initial value of the `PROC_HEAP_ADDR` bump counter from proc.rs. -/
def PROC_HEAP_ADDR0 : Nat := 0x2000000000

/-- `ELF_MAGIC` from proc.rs. -/
def ELF_MAGIC : List Nat := [0x7F, 0x45, 0x4C, 0x46]

/-- `BIN_MAGIC` from proc.rs. -/
def BIN_MAGIC : List Nat := [0x7F, 0x42, 0x49, 0x4E]

/-- The `Registers` struct from proc.rs (general-purpose register snapshot). -/
structure Registers where
  r11 : Nat := 0
  r10 : Nat := 0
  r9 : Nat := 0
  r8 : Nat := 0
  rdi : Nat := 0
  rsi : Nat := 0
  rdx : Nat := 0
  rcx : Nat := 0
  rax : Nat := 0
deriving Repr, DecidableEq

/-- The saved `InterruptStackFrameValue` (x86_64 crate) as plain numbers. -/
structure StackFrame where
  instruction_pointer : Nat := 0
  code_segment : Nat := 0
  cpu_flags : Nat := 0
  stack_pointer : Nat := 0
  stack_segment : Nat := 0
deriving Repr, DecidableEq

/-- `ProcessData` from proc.rs: environment map (as an association list),
working directory and optional user. -/
structure ProcessData where
  env : List (String × String)
  dir : String
  user : Option String
deriving Repr, DecidableEq

/-- A free block list: the state of one `LinkedListAllocator` as the list of
its free regions `(start, size)`.  The allocator's own source file is not
part of the excerpted core; its operations below are modelled from the spec. -/
abbrev FreeList := List (Nat × Nat)

/-- Modelled from the spec: `free_space()` is the sum of all free block
sizes (`LinkedListAllocator` source is outside the excerpted core). -/
def free_space (l : FreeList) : Nat := (l.map Prod.snd).sum

/-- Modelled from the spec: `init(start, size)` establishes the managed
region as a single free block. -/
def llInit (start size : Nat) : FreeList := [(start, size)]

/-- Modelled from the spec: `grow(start, size)` adds a new free block for a
freshly mapped region. -/
def llGrow (l : FreeList) (start size : Nat) : FreeList := l ++ [(start, size)]

/-- Modelled from the spec: alignment enforcement
`(addr + alignment - 1) & !(alignment - 1)` on 64-bit words; for a
power-of-two `align` the complement mask `!(align - 1)` is `2^64 - align`. -/
def alignUp (addr align : Nat) : Nat := (addr + align - 1) &&& (U64 - align)

/-- Modelled from the spec: first-fit `alloc` — scan for the first block
whose alignment-adjusted size fits, split it, charge the alignment padding
against the chosen block, and return the aligned address together with the
remaining free list. -/
def llAlloc : FreeList → Nat → Nat → Option (Nat × FreeList)
  | [], _, _ => none
  | (bstart, bsize) :: rest, size, align =>
    let aligned := alignUp bstart align
    if aligned + size ≤ bstart + bsize then
      let remainder := bstart + bsize - (aligned + size)
      some (aligned, if remainder = 0 then rest else (aligned + size, remainder) :: rest)
    else
      match llAlloc rest size align with
      | some (a, rest') => some (a, (bstart, bsize) :: rest')
      | none => none

/-- The `Process` struct from proc.rs.  The embedded `Arc<Locked<LinkedListAllocator>>`
is carried as the allocator's free block list. -/
structure Process where
  id : Nat
  code_addr : Nat
  stack_addr : Nat
  entry_point : Nat
  stack_frame : StackFrame
  registers : Registers
  data : ProcessData
  parent : Nat
  allocator : FreeList
deriving Repr, DecidableEq

/-- `Process::new(id)` from proc.rs: a zeroed record with directory `/`,
no user, empty environment, empty allocator. -/
def Process.new (id : Nat) : Process :=
  { id
    code_addr := 0
    stack_addr := 0
    entry_point := 0
    stack_frame := {}
    registers := {}
    data := { env := [], dir := "/", user := none }
    parent := 0
    allocator := [] }

/-- Observable calls into the page mapper boundary and image-byte copies,
in program order. -/
inductive Event where
  | allocPages (addr size : Nat)
  | freePages (addr size : Nat)
  | copyImage (dst len : Nat)
  | heapAlloc (size align : Nat)
deriving Repr, DecidableEq

/-- The global mutable kernel state touched by the excerpted core:
`PID`, `MAX_PID`, `PROC_HEAP_ADDR`, `CODE_ADDR`, `PROCESS_TABLE`,
plus the trace of boundary events. -/
structure KernelState where
  pid : Nat
  maxPid : Nat
  procHeapAddr : Nat
  codeAddr : Nat
  table : List Process
  events : List Event
deriving Repr, DecidableEq

/-- The kernel state right after boot: `PID = 0`, `MAX_PID = 1`,
`PROC_HEAP_ADDR = 0x2000000000`, `CODE_ADDR = HEAP_START + HEAP_SIZE`
(set by `init_process_addr` in `init_heap`), and a table of `MAX_PROCS`
copies of `Process::new(0)`. -/
def initState : KernelState :=
  { pid := 0
    maxPid := 1
    procHeapAddr := PROC_HEAP_ADDR0
    codeAddr := HEAP_START + HEAP_SIZE
    table := List.replicate MAX_PROCS (Process.new 0)
    events := [] }

/-- An ELF loadable segment as yielded by the external binary image
parser: target address offset and raw bytes. -/
structure ElfSegment where
  address : Nat
  data : List Nat
deriving Repr, DecidableEq

/-- The parsed view of an ELF file from the external `object` crate:
entry point and loadable segments. -/
structure ElfObj where
  entry : Nat
  segments : List ElfSegment
deriving Repr, DecidableEq

/-- Oracles for the two external collaborators consulted by `create` and
`allocator_grow`: whether a page-mapping request succeeds, and the result
of ELF parsing. -/
structure Env where
  mapperOk : Nat → Nat → Bool
  parseElf : List Nat → Option ElfObj

/-- An environment in which every page-mapping request succeeds and no
buffer parses as ELF. -/
def envAllOk : Env := { mapperOk := fun _ _ => true, parseElf := fun _ => none }

/-- An environment in which every page-mapping request fails. -/
def envNoMap : Env := { mapperOk := fun _ _ => false, parseElf := fun _ => none }

/-- An environment in which every page-mapping request fails and every
buffer parses as an ELF object with entry 0 and no segments. -/
def envNoMapElf : Env :=
  { mapperOk := fun _ _ => false, parseElf := fun _ => some { entry := 0, segments := [] } }

/-- Enumerated Rust panic sites (slice/array index panics and `expect`
messages) reachable in the embedded code. -/
inductive PanicMsg where
  | sliceIndexOutOfRange
  | tableIndexOutOfBounds
  | procMemAlloc
  | procHeapMemAllocFailed
  | procMemGrowFail1545
  | procMemAllocFail5478
deriving Repr, DecidableEq

/-- Outcome of a kernel operation: normal return, the `Err(())` of a
`Result`, or a Rust panic. -/
inductive KOut (α : Type) where
  | ok (val : α) (s : KernelState)
  | err (s : KernelState)
  | fatal (msg : PanicMsg) (s : KernelState)
deriving Repr, DecidableEq

/-- The kernel state carried by an outcome. -/
def KOut.state {α : Type} : KOut α → KernelState
  | .ok _ s => s
  | .err s => s
  | .fatal _ s => s

/-- Whether an outcome is a panic. -/
def KOut.isFatal {α : Type} : KOut α → Bool
  | .fatal _ _ => true
  | _ => false

/-- Whether an outcome is a normal return. -/
def KOut.isOk {α : Type} : KOut α → Bool
  | .ok _ _ => true
  | _ => false

/-- The value of an `ok` outcome (0 otherwise). -/
def KOut.value : KOut Nat → Nat
  | .ok v _ => v
  | _ => 0

/-- `proc::id()` from proc.rs: the current process id. -/
def KernelState.id (s : KernelState) : Nat := s.pid

/-- `proc::set_id(id)` from proc.rs. -/
def set_id (s : KernelState) (id : Nat) : KernelState := { s with pid := id }

/-- The current process's table entry (total read used in statements; the
stateful operations below guard the index as Rust's bounds check does). -/
def curProc (s : KernelState) : Process := s.table.getD s.pid (Process.new 0)

/-- `proc::code_addr()` from proc.rs: the current process's code base. -/
def code_addr (s : KernelState) : Nat := (curProc s).code_addr

/-- `ptr_from_addr` from proc.rs: an address below the current code base is
rebased by adding the base; otherwise it is returned unchanged. -/
def ptr_from_addr (s : KernelState) (addr : Nat) : Nat :=
  let base := code_addr s
  if addr < base then (base + addr) % U64 else addr

/-- `proc::exit()` from proc.rs: frees the code region's pages
(`free_pages(code_addr, MAX_PROC_SIZE)`), decrements `MAX_PID`
(wrapping `fetch_sub`), and sets `PID` to the exiting process's parent.
The table slot is not touched. -/
def exitProc (s : KernelState) : KOut Unit :=
  if s.pid < s.table.length then
    let proc := s.table.getD s.pid (Process.new 0)
    KOut.ok ()
      { s with
        events := s.events ++ [Event.freePages proc.code_addr MAX_PROC_SIZE]
        maxPid := (s.maxPid + (U64 - 1)) % U64
        pid := proc.parent }
  else KOut.fatal PanicMsg.tableIndexOutOfBounds s

/-- `proc::allocator_grow(size)` from proc.rs: bumps `PROC_HEAP_ADDR` by
`size` (the old value is the new region's base), maps the region via
`alloc_pages` (panicking on failure), and grows the current process's
allocator by the region. -/
def allocator_grow (env : Env) (s : KernelState) (size : Nat) : KOut Unit :=
  if s.pid < s.table.length then
    let proc := s.table.getD s.pid (Process.new 0)
    let addr := s.procHeapAddr
    let s := { s with procHeapAddr := (s.procHeapAddr + size) % U64 }
    if env.mapperOk addr size then
      KOut.ok ()
        { s with
          events := s.events ++ [Event.allocPages addr size]
          table := s.table.set s.pid { proc with allocator := llGrow proc.allocator addr size } }
    else KOut.fatal PanicMsg.procMemGrowFail1545 s
  else KOut.fatal PanicMsg.tableIndexOutOfBounds s

/-- The copy events of the ELF segment loop in `Process::create`: each
segment's bytes are written starting at `code_addr + segment.address()`. -/
def copySegEvents (codeAddr : Nat) (segs : List ElfSegment) : List Event :=
  segs.map (fun seg => Event.copyImage ((codeAddr + seg.address) % U64) seg.data.length)

/-- The format-dispatch part of `Process::create` (proc.rs lines 286-315):
ELF magic parses and, when parsing succeeds, maps the code region and
copies each segment (entry point from the header; parse failure falls
through with entry 0 and no mapping, as the `if let Ok` does); BIN magic
copies the whole buffer to the code base without any mapping call; any
other header returns `Err(())`. -/
def createFormat (env : Env) (s : KernelState) (bin : List Nat) (codeAddr : Nat) :
    KOut Nat :=
  if bin.take 4 = ELF_MAGIC then
    match env.parseElf bin with
    | some obj =>
      if env.mapperOk codeAddr MAX_PROC_SIZE then
        KOut.ok obj.entry
          { s with events := s.events ++ [Event.allocPages codeAddr MAX_PROC_SIZE]
                              ++ copySegEvents codeAddr obj.segments }
      else KOut.fatal PanicMsg.procMemAlloc s
    | none => KOut.ok 0 s
  else if bin.take 4 = BIN_MAGIC then
    KOut.ok 0 { s with events := s.events ++ [Event.copyImage codeAddr bin.length] }
  else KOut.err s

/-- `Process::create(bin)` from proc.rs: bumps `CODE_ADDR` by
`MAX_PROC_SIZE` (before any format check), dispatches on the 4-byte magic
(panicking if the buffer is shorter than 4 bytes, as the slice `bin[0..4]`
does), clones inherited state from the current process's table entry, bumps
`PROC_HEAP_ADDR` for a `DEFAULT_HEAP_SIZE` heap, maps it (panicking on
failure) and initializes the new allocator, takes the next id from
`MAX_PID` (wrapping `fetch_add`), and stores the record at index `id`
(panicking when `id` is outside the table). -/
def Process.create (env : Env) (s : KernelState) (bin : List Nat) : KOut Nat :=
  let codeAddr := s.codeAddr
  let s := { s with codeAddr := (s.codeAddr + MAX_PROC_SIZE) % U64 }
  let stack_addr := (codeAddr + MAX_PROC_SIZE - 4096) % U64
  if bin.length < 4 then KOut.fatal PanicMsg.sliceIndexOutOfRange s
  else
    match createFormat env s bin codeAddr with
    | KOut.err s => KOut.err s
    | KOut.fatal m s => KOut.fatal m s
    | KOut.ok entry s =>
      if s.pid < s.table.length then
        let parent := s.table.getD s.pid (Process.new 0)
        let heapAddr := s.procHeapAddr
        let s := { s with procHeapAddr := (s.procHeapAddr + DEFAULT_HEAP_SIZE) % U64 }
        if env.mapperOk heapAddr DEFAULT_HEAP_SIZE then
          let s := { s with events := s.events ++ [Event.allocPages heapAddr DEFAULT_HEAP_SIZE] }
          let id := s.maxPid
          let s := { s with maxPid := (s.maxPid + 1) % U64 }
          let proc : Process :=
            { id
              code_addr := codeAddr
              stack_addr
              entry_point := entry
              stack_frame := parent.stack_frame
              registers := parent.registers
              data := parent.data
              parent := parent.id
              allocator := llInit heapAddr DEFAULT_HEAP_SIZE }
          if id < s.table.length then
            KOut.ok id { s with table := s.table.set id proc }
          else KOut.fatal PanicMsg.tableIndexOutOfBounds s
        else KOut.fatal PanicMsg.procHeapMemAllocFailed s
      else KOut.fatal PanicMsg.tableIndexOutOfBounds s

/-- Sequential copy of argument byte strings in `Process::exec`:
`addr` starts at the allocated block and advances by each argument's
length (`addr += arg.len()`). -/
def execCopyEnd (addr0 : Nat) (args : List (List Nat)) : Nat :=
  args.foldl (fun addr arg => (addr + arg.length) % U64) addr0

/-- `align_of::<&str>()` on x86_64. -/
def strRefAlign : Nat := 8

/-- `size_of::<&str>()` on x86_64 (pointer plus length). -/
def strRefSize : Nat := 16

/-- The padding step of `Process::exec`: `addr += align - (addr % align)`
(note: this adds a full `align` when `addr` is already aligned). -/
def execArrayAddr (addr : Nat) : Nat := (addr + (strRefAlign - addr % strRefAlign)) % U64

/-- One past the last byte written by `Process::exec`'s argument
marshaling: the copied strings, then the padded string-reference array of
`args.length` entries of `size_of::<&str>()` bytes each. -/
def execWriteEnd (addr0 : Nat) (args : List (List Nat)) : Nat :=
  (execArrayAddr (execCopyEnd addr0 args) + strRefSize * args.length) % U64

/-- Outcome of `Process::exec`: the one-way transition to user mode
(carrying, for observation, the marshaling block's start and the end of
the last write), or a panic. -/
inductive ExecOut where
  | launched (blockStart writeEnd : Nat) (s : KernelState)
  | fatal (msg : PanicMsg) (s : KernelState)
deriving Repr, DecidableEq

/-- The kernel state carried by an exec outcome. -/
def ExecOut.state : ExecOut → KernelState
  | .launched _ _ s => s
  | .fatal _ s => s

/-- `Process::exec` from proc.rs (the argument-marshaling part, for the
process stored at index `idx`): allocates one block with
`Layout::from_size_align(1024, 1)` from the process's own heap allocator
(shared through the `Arc` with the table entry), copies the argument
bytes and the rebuilt reference array into it, sets the current id to the
process's id, and performs the privilege transition.  Arguments are taken
as already-read byte strings; a failed block allocation yields the null
address 0, as the raw `alloc` does. -/
def Process.exec (s : KernelState) (idx : Nat) (args : List (List Nat)) : ExecOut :=
  if idx < s.table.length then
    let proc := s.table.getD idx (Process.new 0)
    let s := { s with events := s.events ++ [Event.heapAlloc 1024 1] }
    match llAlloc proc.allocator 1024 1 with
    | some (addr0, rest) =>
      let s := { s with table := s.table.set idx { proc with allocator := rest } }
      ExecOut.launched addr0 (execWriteEnd addr0 args) (set_id s proc.id)
    | none => ExecOut.launched 0 (execWriteEnd 0 args) (set_id s proc.id)
  else ExecOut.fatal PanicMsg.tableIndexOutOfBounds s

/-- Modelled from the spec: the `ExitCode` values surfaced at the syscall
boundary (the sysapi crate defining them is outside the excerpted core);
`spawn` maps creation failure to an exec-error code. -/
inductive ExitCode where
  | Success
  | ExecError
  | OpenError
deriving Repr, DecidableEq

/-- Outcome of `Process::spawn`: control transferred to the new process,
an error code, or a panic. -/
inductive SpawnOut where
  | launched (id blockStart writeEnd : Nat) (s : KernelState)
  | errCode (code : ExitCode) (s : KernelState)
  | fatal (msg : PanicMsg) (s : KernelState)
deriving Repr, DecidableEq

/-- `Process::spawn` from proc.rs: on `create` success, clones the new
table entry and runs `exec`; on `create` failure returns
`Err(ExitCode::ExecError)`. -/
def Process.spawn (env : Env) (s : KernelState) (bin : List Nat)
    (args : List (List Nat)) : SpawnOut :=
  match Process.create env s bin with
  | KOut.ok id s =>
    match Process.exec s id args with
    | ExecOut.launched a e s => SpawnOut.launched id a e s
    | ExecOut.fatal m s => SpawnOut.fatal m s
  | KOut.err s => SpawnOut.errCode ExitCode.ExecError s
  | KOut.fatal m s => SpawnOut.fatal m s

/-- The page-aligned growth amount of service.rs `alloc`:
`(deficit + 0xfff) & !0xfff` on 64-bit words (`!0xfff = 2^64 - 0x1000`). -/
def growAmount (deficit : Nat) : Nat := ((deficit + 0xfff) % U64) &&& (U64 - 0x1000)

/-- Power-of-two test used by `Layout::from_size_align`. -/
def isPow2 (n : Nat) : Bool := n != 0 && (n &&& (n - 1)) == 0

/-- Validity of `Layout::from_size_align(size, align)`: `align` is a
power of two and `size` rounded up to `align` does not overflow `isize`. -/
def layoutOk (size align : Nat) : Bool :=
  isPow2 align && size + (align - 1) ≤ 2 ^ 63 - 1

/-- The final allocation step of the `alloc` service: allocate with
`Layout::from_size_align(size, align)` (panicking on an invalid layout)
from the current process's allocator, yielding the address or the null
address 0. -/
def svcAllocFinish (s : KernelState) (size align : Nat) : KOut Nat :=
  if layoutOk size align then
    if s.pid < s.table.length then
      let proc := s.table.getD s.pid (Process.new 0)
      let s := { s with events := s.events ++ [Event.heapAlloc size align] }
      match llAlloc proc.allocator size align with
      | some (addr, rest) =>
        KOut.ok addr { s with table := s.table.set s.pid { proc with allocator := rest } }
      | none => KOut.ok 0 s
    else KOut.fatal PanicMsg.tableIndexOutOfBounds s
  else KOut.fatal PanicMsg.procMemAllocFail5478 s

/-- The `alloc` service from syscall/service.rs: if the current process's
allocator reports less free space than `size`, computes the deficit,
page-aligns it with `growAmount`, and grows the heap via
`allocator_grow`; then performs the allocation. -/
def svcAlloc (env : Env) (s : KernelState) (size align : Nat) : KOut Nat :=
  if s.pid < s.table.length then
    let fs := free_space (s.table.getD s.pid (Process.new 0)).allocator
    let afterGrow : KOut Unit :=
      if fs < size then allocator_grow env s (growAmount (size - fs))
      else KOut.ok () s
    match afterGrow with
    | KOut.fatal m s => KOut.fatal m s
    | KOut.err s => KOut.err s
    | KOut.ok _ s => svcAllocFinish s size align
  else KOut.fatal PanicMsg.tableIndexOutOfBounds s

/-- A four-byte flat-BIN image (just the magic). -/
def binImage : List Nat := BIN_MAGIC

/-- A four-byte buffer with an unrecognized magic. -/
def badImage : List Nat := [0, 0, 0, 0]

/-- A four-byte ELF image (just the magic; its parsed view comes from
the environment's parser oracle). -/
def elfImage : List Nat := ELF_MAGIC

/-- Whether an exec outcome reached the privilege transition. -/
def ExecOut.isLaunched : ExecOut → Bool
  | .launched _ _ _ => true
  | _ => false

/-- The marshaling block's start address of a launched exec outcome. -/
def ExecOut.blockStart : ExecOut → Nat
  | .launched a _ _ => a
  | _ => 0

/-- One past the last marshaling write of a launched exec outcome. -/
def ExecOut.lastWrite : ExecOut → Nat
  | .launched _ e _ => e
  | _ => 0

/-- A state whose current process has code base 100, for exercising
`ptr_from_addr` on both sides of the base. -/
def c1State : KernelState :=
  { initState with table := initState.table.set 0 { Process.new 0 with code_addr := 100 } }

/-- A state whose current process owns a heap allocator with 256 free
bytes, for exercising the growth path of the `alloc` service. -/
def c7State : KernelState :=
  { initState with table := initState.table.set 0 { Process.new 0 with allocator := [(1000, 256)] } }

/-- `U64` as a numeral. -/
theorem U64_eq : U64 = 18446744073709551616 := by norm_num [U64]

/-- Reading back a just-set slot of a list. -/
theorem getD_set_self {α : Type} :
    ∀ (l : List α) (i : Nat) (p d : α), i < l.length → (l.set i p).getD i d = p
  | _ :: _, 0, _, _, _ => rfl
  | _ :: l, i + 1, p, d, h => getD_set_self l i p d (Nat.lt_of_succ_lt_succ h)

/-- Growing a free list adds exactly the new region's size to the free
space. -/
theorem free_space_llGrow (l : FreeList) (a k : Nat) :
    free_space (llGrow l a k) = free_space l + k := by
  simp [free_space, llGrow]

/-- Unfolding of `exit` on a valid current id: free the code pages,
decrement the id counter, switch to the parent; nothing else changes. -/
theorem exitProc_eq (s : KernelState) (hpid : s.pid < s.table.length)
    (h1 : 1 ≤ s.maxPid) (h2 : s.maxPid < U64) :
    exitProc s = KOut.ok ()
      { s with
        events := s.events ++ [Event.freePages (curProc s).code_addr MAX_PROC_SIZE]
        maxPid := s.maxPid - 1
        pid := (curProc s).parent } := by
  unfold exitProc curProc
  rw [if_pos hpid]
  have hmod : (s.maxPid + (U64 - 1)) % U64 = s.maxPid - 1 := by
    rw [U64_eq] at h2 ⊢
    omega
  rw [hmod]

/-- Unfolding of `create` on a flat-BIN image when the current id and the
fresh id are in bounds and the heap mapping succeeds. -/
theorem create_bin_spec (env : Env) (s : KernelState) (bin : List Nat)
    (hpid : s.pid < s.table.length)
    (hblen : 4 ≤ bin.length) (hmagic : bin.take 4 = BIN_MAGIC)
    (hmap : env.mapperOk s.procHeapAddr DEFAULT_HEAP_SIZE = true)
    (hid : s.maxPid < s.table.length) :
    Process.create env s bin =
      KOut.ok s.maxPid
        { s with
          codeAddr := (s.codeAddr + MAX_PROC_SIZE) % U64
          events := s.events ++ [Event.copyImage s.codeAddr bin.length,
                       Event.allocPages s.procHeapAddr DEFAULT_HEAP_SIZE]
          procHeapAddr := (s.procHeapAddr + DEFAULT_HEAP_SIZE) % U64
          maxPid := (s.maxPid + 1) % U64
          table := s.table.set s.maxPid
            { id := s.maxPid
              code_addr := s.codeAddr
              stack_addr := (s.codeAddr + MAX_PROC_SIZE - 4096) % U64
              entry_point := 0
              stack_frame := (curProc s).stack_frame
              registers := (curProc s).registers
              data := (curProc s).data
              parent := (curProc s).id
              allocator := llInit s.procHeapAddr DEFAULT_HEAP_SIZE } } := by
  have h4 : ¬ bin.length < 4 := Nat.not_lt.mpr hblen
  have helf : ¬ bin.take 4 = ELF_MAGIC := by rw [hmagic]; decide
  unfold Process.create createFormat
  simp [h4, helf, hmagic, hpid, hmap, hid, ELF_MAGIC, BIN_MAGIC, curProc, List.getD]

/-- The allocation step of the `alloc` service appends exactly one
allocation request and leaves the heap bump counter alone. -/
theorem svcAllocFinish_spec (s : KernelState) (size align : Nat)
    (hpid : s.pid < s.table.length) (hlayout : layoutOk size align = true) :
    (svcAllocFinish s size align).state.events = s.events ++ [Event.heapAlloc size align] ∧
    (svcAllocFinish s size align).state.procHeapAddr = s.procHeapAddr ∧
    (svcAllocFinish s size align).isOk = true := by
  unfold svcAllocFinish
  rw [if_pos hlayout, if_pos hpid]
  cases hll : llAlloc ((s.table[s.pid]?).getD (Process.new 0)).allocator size align with
  | none => simp [hll, KOut.state, KOut.isOk]
  | some p =>
    cases p with
    | mk a rest => simp [hll, KOut.state, KOut.isOk]

/-- Masking a 64-bit value with `!0xfff` truncates it to a multiple of
4096. -/
theorem land_mask_4096 (x : Nat) (hx : x < U64) :
    x &&& (U64 - 0x1000) = 4096 * (x / 4096) := by
  have hm : U64 - 0x1000 = (2 ^ 52 - 1) <<< 12 := by norm_num [U64, Nat.shiftLeft_eq]
  have hr : 4096 * (x / 4096) = (x >>> 12) <<< 12 := by
    rw [Nat.shiftLeft_eq, Nat.shiftRight_eq_div_pow]
    norm_num [Nat.mul_comm]
  rw [hm, hr]
  apply Nat.eq_of_testBit_eq
  intro i
  rw [Nat.testBit_land, Nat.testBit_shiftLeft, Nat.testBit_shiftLeft, Nat.testBit_shiftRight,
    Nat.testBit_two_pow_sub_one]
  by_cases h12 : 12 ≤ i
  · by_cases h64 : i < 64
    · have h52 : i - 12 < 52 := by omega
      have h' : 12 + (i - 12) = i := by omega
      simp [h12, h52, h']
    · have hbit : x.testBit i = false :=
        Nat.testBit_lt_two_pow (lt_of_lt_of_le (by rw [U64_eq] at hx; norm_num; omega)
          (Nat.pow_le_pow_right (by norm_num) (le_of_not_lt h64)))
      have h' : 12 + (i - 12) = i := by omega
      simp [h12, hbit, h']
  · simp [h12]

/-- `(d + 0xfff) & !0xfff` is `d` rounded up to the next multiple of the
4096-byte page size. -/
theorem growAmount_eq_roundup (d : Nat) (hd : d + 4095 < U64) :
    growAmount d = 4096 * ((d + 4095) / 4096) := by
  unfold growAmount
  rw [Nat.mod_eq_of_lt (show d + 0xfff < U64 by omega)]
  exact land_mask_4096 _ (by omega)

/-- Unfolding of `allocator_grow` on a successful mapping: the heap bump
counter advances by `size`, an `alloc_pages` request for the old counter
value is issued, and the current process's free space grows by exactly
`size`. -/
theorem allocator_grow_spec (env : Env) (s : KernelState) (size : Nat)
    (hpid : s.pid < s.table.length)
    (hmap : env.mapperOk s.procHeapAddr size = true) :
    ∃ sg : KernelState,
      allocator_grow env s size = KOut.ok () sg ∧
      sg.pid = s.pid ∧ sg.table.length = s.table.length ∧
      sg.procHeapAddr = (s.procHeapAddr + size) % U64 ∧
      sg.events = s.events ++ [Event.allocPages s.procHeapAddr size] ∧
      free_space (curProc sg).allocator = free_space (curProc s).allocator + size := by
  refine ⟨{ s with
      procHeapAddr := (s.procHeapAddr + size) % U64
      events := s.events ++ [Event.allocPages s.procHeapAddr size]
      table := s.table.set s.pid
        { curProc s with allocator := llGrow (curProc s).allocator s.procHeapAddr size } },
    ?_, rfl, by simp, rfl, rfl, ?_⟩
  · unfold allocator_grow
    rw [if_pos hpid]
    simp [hmap, curProc, List.getD]
  · simp only [curProc]
    rw [getD_set_self _ _ _ _ hpid]
    exact free_space_llGrow _ _ _

/-- C1: for every address `x`, with `B` the current process's code base
(`code_addr` of the table entry at the current id), `ptr_from_addr x`
returns `B + x` when `x < B` and returns `x` unchanged when `x ≥ B`. -/
theorem C1_ptr_from_addr_rebases (s : KernelState) (x : Nat)
    (hpid : s.pid < s.table.length) (hfit : code_addr s + x < U64) :
    (x < code_addr s → ptr_from_addr s x = code_addr s + x) ∧
    (code_addr s ≤ x → ptr_from_addr s x = x) := by
  unfold ptr_from_addr
  constructor
  · intro h
    simp [h, Nat.mod_eq_of_lt hfit]
  · intro h
    simp [Nat.not_lt.mpr h]

/-- Witness for C1 at a current process with code base 100 and the
offset-side address 7. -/
theorem C1_ptr_from_addr_rebases_witness :
    c1State.pid < c1State.table.length ∧ code_addr c1State + 7 < U64 ∧
    ((7 < code_addr c1State → ptr_from_addr c1State 7 = code_addr c1State + 7) ∧
     (code_addr c1State ≤ 7 → ptr_from_addr c1State 7 = 7)) :=
  ⟨by decide, by decide, C1_ptr_from_addr_rebases c1State 7 (by decide) (by decide)⟩

/-- C2 counterexample: on the unrecognized-magic image `[0,0,0,0]`,
`create` does fail (neither success nor panic, so `Err`), but the
code/stack address-space bump counter `CODE_ADDR` is advanced anyway,
because `create` performs the `fetch_add` before inspecting the magic —
refuting the claimed "no code/stack address-space consumed". -/
theorem C2_create_consumes_address_space :
    (Process.create envAllOk initState badImage).isOk = false ∧
    (Process.create envAllOk initState badImage).isFatal = false ∧
    (Process.create envAllOk initState badImage).state.codeAddr ≠ initState.codeAddr := by
  decide

/-- C2 amended: for every image whose first four bytes are neither the
ELF nor the BIN magic, `create` returns `Err` with the table, the id
counter, and the event trace (hence pages mapped) unchanged — but with
the code/stack address-space counter advanced by one region size — and
`spawn` maps the failure to an exec-error result. -/
theorem C2_bad_magic_rejected (env : Env) (s : KernelState) (bin : List Nat)
    (args : List (List Nat)) (hlen : 4 ≤ bin.length)
    (helf : bin.take 4 ≠ ELF_MAGIC) (hbin : bin.take 4 ≠ BIN_MAGIC) :
    Process.create env s bin =
      KOut.err { s with codeAddr := (s.codeAddr + MAX_PROC_SIZE) % U64 } ∧
    Process.spawn env s bin args =
      SpawnOut.errCode ExitCode.ExecError
        { s with codeAddr := (s.codeAddr + MAX_PROC_SIZE) % U64 } := by
  have h4 : ¬ bin.length < 4 := Nat.not_lt.mpr hlen
  have hcreate : Process.create env s bin =
      KOut.err { s with codeAddr := (s.codeAddr + MAX_PROC_SIZE) % U64 } := by
    unfold Process.create createFormat
    simp [h4, helf, hbin]
  refine ⟨hcreate, ?_⟩
  unfold Process.spawn
  rw [hcreate]

/-- Witness for C2 at the image `[0,0,0,0]` from the initial state. -/
theorem C2_bad_magic_rejected_witness :
    4 ≤ badImage.length ∧ badImage.take 4 ≠ ELF_MAGIC ∧ badImage.take 4 ≠ BIN_MAGIC ∧
    (Process.create envAllOk initState badImage =
       KOut.err { initState with codeAddr := (initState.codeAddr + MAX_PROC_SIZE) % U64 } ∧
     Process.spawn envAllOk initState badImage [] =
       SpawnOut.errCode ExitCode.ExecError
         { initState with codeAddr := (initState.codeAddr + MAX_PROC_SIZE) % U64 }) :=
  ⟨by decide, by decide, by decide,
    C2_bad_magic_rejected envAllOk initState badImage [] (by decide) (by decide) (by decide)⟩

/-- C3 (code bug): a successful flat-BIN `create` copies the image bytes
into the code region without any `alloc_pages` call for that region —
`alloc_pages(code_addr, ..)` appears only in the ELF branch, so the claim
"the region is mapped before the image bytes are copied, regardless of
format" fails on BIN images.  At the failing input (a BIN-magic image
from the initial state) the create succeeds and its event trace holds the
copy and the heap mapping only: no `allocPages` event for the code base
exists at all, in particular none before the copy. -/
theorem C3_bin_copy_never_mapped :
    (Process.create envAllOk initState binImage).isOk = true ∧
    (Process.create envAllOk initState binImage).state.events =
      [Event.copyImage initState.codeAddr binImage.length,
       Event.allocPages PROC_HEAP_ADDR0 DEFAULT_HEAP_SIZE] ∧
    (∀ sz : Nat,
      Event.allocPages initState.codeAddr sz ∉
        (Process.create envAllOk initState binImage).state.events) := by
  refine ⟨by decide, by decide, ?_⟩
  intro sz h
  have hev : (Process.create envAllOk initState binImage).state.events =
      [Event.copyImage initState.codeAddr binImage.length,
       Event.allocPages PROC_HEAP_ADDR0 DEFAULT_HEAP_SIZE] := by decide
  rw [hev] at h
  simp only [List.mem_cons, List.not_mem_nil, or_false] at h
  rcases h with h | h
  · exact Event.noConfusion h
  · have : initState.codeAddr = PROC_HEAP_ADDR0 := by
      injection h with h1 h2
    exact absurd this (by decide)

/-- C4 counterexample: with a page mapper that fails, `allocator_grow`
and `create` (on a well-formed BIN image) both end in a kernel panic
(`expect`), not in an error result propagated to the caller — refuting
the claimed "propagated as an error result". -/
theorem C4_mapping_failure_panics :
    (allocator_grow envNoMap initState 4096).isFatal = true ∧
    (allocator_grow envNoMap initState 4096).isOk = false ∧
    (Process.create envNoMap initState binImage).isFatal = true ∧
    (Process.create envNoMap initState binImage).isOk = false := by
  decide

/-- C4 amended: a page-mapping failure terminates the failing operation
fatally with a kernel panic at each of the three `expect` sites — heap
growth (`allocator_grow`), the heap map of every recognized-format
`create` (shown on a BIN image), and the ELF-branch code-region map of
`create` — is not retried internally (the mapper is consulted exactly
once per site), but is not propagated as an error result to the caller. -/
theorem C4_mapping_failure_fatal (env : Env) (s : KernelState) (size : Nat)
    (bin ebin : List Nat) (obj : ElfObj) (hpid : s.pid < s.table.length)
    (hm1 : env.mapperOk s.procHeapAddr size = false)
    (hm2 : env.mapperOk s.procHeapAddr DEFAULT_HEAP_SIZE = false)
    (hm3 : env.mapperOk s.codeAddr MAX_PROC_SIZE = false)
    (hlen : 4 ≤ bin.length) (hmagic : bin.take 4 = BIN_MAGIC)
    (helen : 4 ≤ ebin.length) (hemagic : ebin.take 4 = ELF_MAGIC)
    (hparse : env.parseElf ebin = some obj) :
    allocator_grow env s size =
      KOut.fatal PanicMsg.procMemGrowFail1545
        { s with procHeapAddr := (s.procHeapAddr + size) % U64 } ∧
    Process.create env s bin =
      KOut.fatal PanicMsg.procHeapMemAllocFailed
        { s with
          codeAddr := (s.codeAddr + MAX_PROC_SIZE) % U64
          events := s.events ++ [Event.copyImage s.codeAddr bin.length]
          procHeapAddr := (s.procHeapAddr + DEFAULT_HEAP_SIZE) % U64 } ∧
    Process.create env s ebin =
      KOut.fatal PanicMsg.procMemAlloc
        { s with codeAddr := (s.codeAddr + MAX_PROC_SIZE) % U64 } := by
  have h4 : ¬ bin.length < 4 := Nat.not_lt.mpr hlen
  have helf : ¬ bin.take 4 = ELF_MAGIC := by rw [hmagic]; decide
  have he4 : ¬ ebin.length < 4 := Nat.not_lt.mpr helen
  refine ⟨?_, ?_, ?_⟩
  · unfold allocator_grow
    rw [if_pos hpid]
    simp [hm1]
  · unfold Process.create createFormat
    simp [h4, helf, hmagic, hpid, hm2, ELF_MAGIC, BIN_MAGIC]
  · unfold Process.create createFormat
    simp [he4, hemagic, hparse, hm3]

/-- Witness for C4 at the failing mapper (which parses every ELF buffer),
the initial state, growth size 8192, the BIN-magic image and the
ELF-magic image. -/
theorem C4_mapping_failure_fatal_witness :
    initState.pid < initState.table.length ∧
    envNoMapElf.mapperOk initState.procHeapAddr 8192 = false ∧
    envNoMapElf.mapperOk initState.procHeapAddr DEFAULT_HEAP_SIZE = false ∧
    envNoMapElf.mapperOk initState.codeAddr MAX_PROC_SIZE = false ∧
    4 ≤ binImage.length ∧ binImage.take 4 = BIN_MAGIC ∧
    4 ≤ elfImage.length ∧ elfImage.take 4 = ELF_MAGIC ∧
    envNoMapElf.parseElf elfImage = some { entry := 0, segments := [] } ∧
    (allocator_grow envNoMapElf initState 8192 =
       KOut.fatal PanicMsg.procMemGrowFail1545
         { initState with procHeapAddr := (initState.procHeapAddr + 8192) % U64 } ∧
     Process.create envNoMapElf initState binImage =
       KOut.fatal PanicMsg.procHeapMemAllocFailed
         { initState with
           codeAddr := (initState.codeAddr + MAX_PROC_SIZE) % U64
           events := initState.events ++ [Event.copyImage initState.codeAddr binImage.length]
           procHeapAddr := (initState.procHeapAddr + DEFAULT_HEAP_SIZE) % U64 } ∧
     Process.create envNoMapElf initState elfImage =
       KOut.fatal PanicMsg.procMemAlloc
         { initState with codeAddr := (initState.codeAddr + MAX_PROC_SIZE) % U64 }) :=
  ⟨by decide, by decide, by decide, by decide, by decide, by decide, by decide, by decide,
    by decide,
    C4_mapping_failure_fatal envNoMapElf initState 8192 binImage elfImage
      { entry := 0, segments := [] }
      (by decide) (by decide) (by decide) (by decide) (by decide) (by decide) (by decide)
      (by decide) (by decide)⟩

/-- C5: the table has `MAX_PROCS = 4` slots while ids come from the
unbounded `MAX_PID` counter used directly as the storage index: after
three successful creates (ids 1, 2, 3) the next create draws id 4, which
is outside the table bounds, and the store panics — the indexing is not
total under the table's capacity. -/
theorem C5_table_index_not_total :
    (let r1 := Process.create envAllOk initState binImage
     let r2 := Process.create envAllOk r1.state binImage
     let r3 := Process.create envAllOk r2.state binImage
     let r4 := Process.create envAllOk r3.state binImage
     MAX_PROCS = 4 ∧
     r1.isOk = true ∧ r2.isOk = true ∧ r3.isOk = true ∧
     r1.value = 1 ∧ r2.value = 2 ∧ r3.value = 3 ∧
     r3.state.maxPid = 4 ∧ r3.state.table.length = MAX_PROCS ∧
     ¬ r3.state.maxPid < MAX_PROCS ∧
     r4 = KOut.fatal PanicMsg.tableIndexOutOfBounds
            { r3.state with
              codeAddr := (r3.state.codeAddr + MAX_PROC_SIZE) % U64
              events := r3.state.events ++
                [Event.copyImage r3.state.codeAddr binImage.length,
                 Event.allocPages r3.state.procHeapAddr DEFAULT_HEAP_SIZE]
              procHeapAddr := (r3.state.procHeapAddr + DEFAULT_HEAP_SIZE) % U64
              maxPid := (r3.state.maxPid + 1) % U64 }) := by
  decide

/-- C6: `exit` appends a `free_pages(code_addr, MAX_PROC_SIZE)` release
of the current process's code pages, decrements the live-process counter
`MAX_PID` by one, sets the current-process register to the recorded
parent, and leaves the table (in particular the exiting process's slot)
unchanged. -/
theorem C6_exit_releases_and_reparents (s : KernelState)
    (hpid : s.pid < s.table.length) (h1 : 1 ≤ s.maxPid) (h2 : s.maxPid < U64) :
    exitProc s =
      KOut.ok ()
        { s with
          events := s.events ++ [Event.freePages (curProc s).code_addr MAX_PROC_SIZE]
          maxPid := s.maxPid - 1
          pid := (curProc s).parent } :=
  exitProc_eq s hpid h1 h2

/-- Witness for C6 at the state reached by one BIN create with the new
process current. -/
theorem C6_exit_releases_and_reparents_witness :
    (set_id (Process.create envAllOk initState binImage).state 1).pid <
      (set_id (Process.create envAllOk initState binImage).state 1).table.length ∧
    1 ≤ (set_id (Process.create envAllOk initState binImage).state 1).maxPid ∧
    (set_id (Process.create envAllOk initState binImage).state 1).maxPid < U64 ∧
    exitProc (set_id (Process.create envAllOk initState binImage).state 1) =
      KOut.ok ()
        { set_id (Process.create envAllOk initState binImage).state 1 with
          events := (set_id (Process.create envAllOk initState binImage).state 1).events ++
            [Event.freePages
              (curProc (set_id (Process.create envAllOk initState binImage).state 1)).code_addr
              MAX_PROC_SIZE]
          maxPid := (set_id (Process.create envAllOk initState binImage).state 1).maxPid - 1
          pid := (curProc (set_id (Process.create envAllOk initState binImage).state 1)).parent } :=
  ⟨by decide, by decide, by decide,
    C6_exit_releases_and_reparents (set_id (Process.create envAllOk initState binImage).state 1)
      (by decide) (by decide) (by decide)⟩

/-- C8: spawning three processes in sequence (each spawn's `exec` makes
the new process current, no intervening exits) yields strictly increasing
ids 1 < 2 < 3, and each new record's parent field equals the id that was
current at the moment `create` was invoked. -/
theorem C8_ids_monotonic_parents_current :
    (let r1 := Process.create envAllOk initState binImage
     let u1 := set_id r1.state r1.value
     let r2 := Process.create envAllOk u1 binImage
     let u2 := set_id r2.state r2.value
     let r3 := Process.create envAllOk u2 binImage
     r1.isOk = true ∧ r2.isOk = true ∧ r3.isOk = true ∧
     r1.value < r2.value ∧ r2.value < r3.value ∧
     (r3.state.table.getD r1.value (Process.new 0)).parent = initState.pid ∧
     (r3.state.table.getD r2.value (Process.new 0)).parent = u1.pid ∧
     (r3.state.table.getD r3.value (Process.new 0)).parent = u2.pid) := by
  decide

/-- C10: the argument-marshaling of `exec` issues exactly one request of
`Layout::from_size_align(1024, 1)` to the new process's heap allocator,
independent of the number and total length of the arguments; and for the
concrete input of 65 empty argument strings the marshaling writes (the
aligned string-reference array of 65 sixteen-byte entries) end past the
1024-byte block, falling outside the allocation.  The state is the one
after creating a BIN process from the initial state (process 1, fresh
`DEFAULT_HEAP_SIZE` heap). -/
theorem C10_exec_marshal_block_overflow :
    (∀ args : List (List Nat),
      (Process.exec (Process.create envAllOk initState binImage).state 1 args).state.events =
        (Process.create envAllOk initState binImage).state.events ++ [Event.heapAlloc 1024 1]) ∧
    ((Process.exec (Process.create envAllOk initState binImage).state 1
        (List.replicate 65 [])).isLaunched = true ∧
     (Process.exec (Process.create envAllOk initState binImage).state 1
        (List.replicate 65 [])).blockStart + 1024 <
       (Process.exec (Process.create envAllOk initState binImage).state 1
          (List.replicate 65 [])).lastWrite) := by
  refine ⟨fun args => rfl, by decide, by decide⟩

/-- C7: an `alloc` service request of `size` bytes grows the heap first
exactly when the allocator's free space is short: the deficit
`size - free_space()` is rounded up to a page multiple as
`(deficit + 4095) & !4095` (proved equal to the arithmetic round-up),
the heap region is extended via the page mapper and the allocator grown
by exactly that amount before the allocation is performed; when
`free_space() ≥ size` no growth occurs (no mapper call, heap counter
untouched). -/
theorem C7_alloc_grows_on_deficit (env : Env) (s : KernelState) (size align : Nat)
    (hpid : s.pid < s.table.length)
    (hmap : env.mapperOk s.procHeapAddr
      (growAmount (size - free_space (curProc s).allocator)) = true)
    (hlayout : layoutOk size align = true) (hsize : size + 4095 < U64) :
    (free_space (curProc s).allocator < size →
      growAmount (size - free_space (curProc s).allocator) =
        4096 * ((size - free_space (curProc s).allocator + 4095) / 4096) ∧
      ∃ sg : KernelState,
        allocator_grow env s (growAmount (size - free_space (curProc s).allocator)) =
          KOut.ok () sg ∧
        sg.procHeapAddr =
          (s.procHeapAddr + growAmount (size - free_space (curProc s).allocator)) % U64 ∧
        sg.events = s.events ++
          [Event.allocPages s.procHeapAddr
            (growAmount (size - free_space (curProc s).allocator))] ∧
        free_space (curProc sg).allocator =
          free_space (curProc s).allocator +
            growAmount (size - free_space (curProc s).allocator) ∧
        svcAlloc env s size align = svcAllocFinish sg size align ∧
        (svcAlloc env s size align).state.events =
          sg.events ++ [Event.heapAlloc size align] ∧
        (svcAlloc env s size align).isOk = true) ∧
    (size ≤ free_space (curProc s).allocator →
      svcAlloc env s size align = svcAllocFinish s size align ∧
      (svcAlloc env s size align).state.events = s.events ++ [Event.heapAlloc size align] ∧
      (svcAlloc env s size align).state.procHeapAddr = s.procHeapAddr ∧
      (svcAlloc env s size align).isOk = true) := by
  constructor
  · intro hlt
    refine ⟨growAmount_eq_roundup _ (by omega), ?_⟩
    obtain ⟨sg, hgrow, hsgpid, hsglen, hsgheap, hsgev, hsgfs⟩ :=
      allocator_grow_spec env s (growAmount (size - free_space (curProc s).allocator)) hpid hmap
    have hgrow' := hgrow
    simp only [curProc] at hgrow'
    have hsvc : svcAlloc env s size align = svcAllocFinish sg size align := by
      simp only [svcAlloc]
      rw [if_pos hpid,
        if_pos (show free_space (s.table.getD s.pid (Process.new 0)).allocator < size from hlt),
        hgrow']
    obtain ⟨hev, hheap, hok⟩ :=
      svcAllocFinish_spec sg size align (by rw [hsgpid, hsglen]; exact hpid) hlayout
    exact ⟨sg, hgrow, hsgheap, hsgev, hsgfs, hsvc,
      by rw [hsvc]; exact hev, by rw [hsvc]; exact hok⟩
  · intro hge
    have hsvc : svcAlloc env s size align = svcAllocFinish s size align := by
      simp only [svcAlloc]
      rw [if_pos hpid,
        if_neg (show ¬ free_space (s.table.getD s.pid (Process.new 0)).allocator < size from
          Nat.not_lt.mpr hge)]
    obtain ⟨hev, hheap, hok⟩ := svcAllocFinish_spec s size align hpid hlayout
    exact ⟨hsvc, by rw [hsvc]; exact hev, by rw [hsvc]; exact hheap, by rw [hsvc]; exact hok⟩

/-- Witness for C7 at a current process with 256 free heap bytes, a
4096-byte request and alignment 8. -/
theorem C7_alloc_grows_on_deficit_witness :
    c7State.pid < c7State.table.length ∧
    envAllOk.mapperOk c7State.procHeapAddr
      (growAmount (4096 - free_space (curProc c7State).allocator)) = true ∧
    layoutOk 4096 8 = true ∧ 4096 + 4095 < U64 ∧
    ((free_space (curProc c7State).allocator < 4096 →
      growAmount (4096 - free_space (curProc c7State).allocator) =
        4096 * ((4096 - free_space (curProc c7State).allocator + 4095) / 4096) ∧
      ∃ sg : KernelState,
        allocator_grow envAllOk c7State
            (growAmount (4096 - free_space (curProc c7State).allocator)) =
          KOut.ok () sg ∧
        sg.procHeapAddr =
          (c7State.procHeapAddr +
            growAmount (4096 - free_space (curProc c7State).allocator)) % U64 ∧
        sg.events = c7State.events ++
          [Event.allocPages c7State.procHeapAddr
            (growAmount (4096 - free_space (curProc c7State).allocator))] ∧
        free_space (curProc sg).allocator =
          free_space (curProc c7State).allocator +
            growAmount (4096 - free_space (curProc c7State).allocator) ∧
        svcAlloc envAllOk c7State 4096 8 = svcAllocFinish sg 4096 8 ∧
        (svcAlloc envAllOk c7State 4096 8).state.events =
          sg.events ++ [Event.heapAlloc 4096 8] ∧
        (svcAlloc envAllOk c7State 4096 8).isOk = true) ∧
     (4096 ≤ free_space (curProc c7State).allocator →
      svcAlloc envAllOk c7State 4096 8 = svcAllocFinish c7State 4096 8 ∧
      (svcAlloc envAllOk c7State 4096 8).state.events =
        c7State.events ++ [Event.heapAlloc 4096 8] ∧
      (svcAlloc envAllOk c7State 4096 8).state.procHeapAddr = c7State.procHeapAddr ∧
      (svcAlloc envAllOk c7State 4096 8).isOk = true)) :=
  ⟨by decide, by decide, by decide, by decide,
    C7_alloc_grows_on_deficit envAllOk c7State 4096 8
      (by decide) (by decide) (by decide) (by decide)⟩

/-- C9: `exit` decrements the same `MAX_PID` counter from which `create`
draws fresh ids; hence when a process exits and a create then succeeds,
the new process receives id `MAX_PID - 1` — an id at least 1 and below
the pre-exit counter, so one already assigned to a previously created
process (create hands out 1, 2, ... in order) — and its record is stored
over that earlier process's table slot. -/
theorem C9_exit_create_reuses_id (env : Env) (s : KernelState) (bin : List Nat)
    (hlen4 : s.table.length = MAX_PROCS)
    (hpid : s.pid < s.table.length)
    (hparent : (curProc s).parent < s.table.length)
    (hmax1 : 2 ≤ s.maxPid) (hmax2 : s.maxPid ≤ MAX_PROCS)
    (hblen : 4 ≤ bin.length) (hmagic : bin.take 4 = BIN_MAGIC)
    (hmap : env.mapperOk s.procHeapAddr DEFAULT_HEAP_SIZE = true) :
    ∃ s' : KernelState,
      exitProc s = KOut.ok () s' ∧
      s'.maxPid = s.maxPid - 1 ∧
      ∃ p : Process, ∃ s'' : KernelState,
        Process.create env s' bin = KOut.ok (s.maxPid - 1) s'' ∧
        1 ≤ s.maxPid - 1 ∧ s.maxPid - 1 < s.maxPid ∧
        p.id = s.maxPid - 1 ∧
        s''.table = s'.table.set (s.maxPid - 1) p := by
  have h2 : s.maxPid < U64 := by
    rw [U64_eq]
    unfold MAX_PROCS at hmax2
    omega
  have hexit := exitProc_eq s hpid (by omega) h2
  refine ⟨_, hexit, rfl, ?_⟩
  set s' : KernelState :=
    { s with
      events := s.events ++ [Event.freePages (curProc s).code_addr MAX_PROC_SIZE]
      maxPid := s.maxPid - 1
      pid := (curProc s).parent } with hs'
  have hpid' : s'.pid < s'.table.length := hparent
  have hid' : s'.maxPid < s'.table.length := by
    show s.maxPid - 1 < s.table.length
    have hM : MAX_PROCS = 4 := rfl
    omega
  have hcreate := create_bin_spec env s' bin hpid' hblen hmagic hmap hid'
  have hge : 1 ≤ s.maxPid - 1 := by omega
  have hlt : s.maxPid - 1 < s.maxPid := by omega
  refine ⟨_, _, hcreate, hge, hlt, rfl, rfl⟩

/-- Witness for C9 at the state after one BIN create with the created
process (id 1) current. -/
theorem C9_exit_create_reuses_id_witness :
    (set_id (Process.create envAllOk initState binImage).state 1).table.length = MAX_PROCS ∧
    (set_id (Process.create envAllOk initState binImage).state 1).pid <
      (set_id (Process.create envAllOk initState binImage).state 1).table.length ∧
    (curProc (set_id (Process.create envAllOk initState binImage).state 1)).parent <
      (set_id (Process.create envAllOk initState binImage).state 1).table.length ∧
    2 ≤ (set_id (Process.create envAllOk initState binImage).state 1).maxPid ∧
    (set_id (Process.create envAllOk initState binImage).state 1).maxPid ≤ MAX_PROCS ∧
    4 ≤ binImage.length ∧ binImage.take 4 = BIN_MAGIC ∧
    envAllOk.mapperOk
      (set_id (Process.create envAllOk initState binImage).state 1).procHeapAddr
      DEFAULT_HEAP_SIZE = true ∧
    (∃ s' : KernelState,
      exitProc (set_id (Process.create envAllOk initState binImage).state 1) =
        KOut.ok () s' ∧
      s'.maxPid = (set_id (Process.create envAllOk initState binImage).state 1).maxPid - 1 ∧
      ∃ p : Process, ∃ s'' : KernelState,
        Process.create envAllOk s' binImage =
          KOut.ok ((set_id (Process.create envAllOk initState binImage).state 1).maxPid - 1) s'' ∧
        1 ≤ (set_id (Process.create envAllOk initState binImage).state 1).maxPid - 1 ∧
        (set_id (Process.create envAllOk initState binImage).state 1).maxPid - 1 <
          (set_id (Process.create envAllOk initState binImage).state 1).maxPid ∧
        p.id = (set_id (Process.create envAllOk initState binImage).state 1).maxPid - 1 ∧
        s''.table = s'.table.set
          ((set_id (Process.create envAllOk initState binImage).state 1).maxPid - 1) p) :=
  ⟨by decide, by decide, by decide, by decide, by decide, by decide, by decide, by decide,
    C9_exit_create_reuses_id envAllOk
      (set_id (Process.create envAllOk initState binImage).state 1) binImage
      (by decide) (by decide) (by decide) (by decide) (by decide) (by decide) (by decide)
      (by decide)⟩

end CineaOS
